import Mathlib

/-!
Shallow embedding of `src/api/providers/ollama.ts` (the `OllamaHandler` class):
configuration, lazy client host derivation, model resolution (`getModel`),
the request/timeout race, chunk-to-event stream translation, and the error
classifier of `createMessage`.

JavaScript conventions modelled explicitly:
- optional / possibly-`undefined` fields become `Option`;
- `x || d` (falsy-or-default) becomes explicit functions `jsOrString`,
  `jsOrNum`, `jsOrNat` (falsy: `undefined`, `""`, `0`, `NaN`);
- `Number(s)` becomes `jsNumber : Option String → Option ℚ` where `none`
  stands for `NaN` (decimal syntax with optional sign and fraction);
- a thrown JS `Error` becomes the record `JsError` (message, status fields).
-/

namespace OllamaSpec

/-- The `OllamaHandlerOptions` interface: every field is optional. -/
structure OllamaHandlerOptions where
  ollamaBaseUrl : Option String := none
  ollamaApiKey : Option String := none
  ollamaModelId : Option String := none
  ollamaApiOptionsCtxNum : Option String := none
  requestTimeoutMs : Option Nat := none
deriving DecidableEq, Repr

/-- The `message` object inside an Ollama response chunk; `content` is
`some s` when the field holds the string `s` and `none` when it is absent
or not a string (the code checks `typeof chunk.message.content === "string"`). -/
structure OllamaMessage where
  content : Option String
deriving DecidableEq, Repr

/-- One streamed response chunk. `message = none` models a chunk without a
`message` object, on which `chunk.message.content` throws a TypeError. -/
structure OllamaChunk where
  message : Option OllamaMessage
  eval_count : Option Nat
  prompt_eval_count : Option Nat
deriving DecidableEq, Repr

/-- The canonical events yielded by `createMessage`:
`{type: "text", text}` and `{type: "usage", inputTokens, outputTokens}`. -/
inductive CanonicalEvent where
  | textDelta (text : String)
  | usageUpdate (inputTokens : Nat) (outputTokens : Nat)
deriving DecidableEq, Repr

/-- A thrown JS `Error` value as the code inspects it: an optional `message`
string and the optional `status` / `statusCode` fields. -/
structure JsError where
  message : Option String
  status : Option Nat
  statusCode : Option Nat
deriving DecidableEq, Repr

/-- Build a plain `new Error(msg)`. -/
def mkJsError (msg : String) : JsError :=
  { message := some msg, status := none, statusCode := none }

/-- JS `x || d` on an optional string (`undefined` and `""` are falsy). -/
def jsOrString (x : Option String) (d : String) : String :=
  match x with
  | none => d
  | some s => if s = "" then d else s

/-- JS `x || d` on an optional number where `none` is `NaN`
(`NaN` and `0` are falsy). -/
def jsOrNum (x : Option ℚ) (d : ℚ) : ℚ :=
  match x with
  | none => d
  | some q => if q = 0 then d else q

/-- JS `x || d` on an optional natural (`undefined` and `0` are falsy). -/
def jsOrNat (x : Option Nat) (d : Nat) : Nat :=
  match x with
  | none => d
  | some n => if n = 0 then d else n

/-- Numeric value of a digit list read in base 10. -/
def digitsVal (cs : List Char) : Nat :=
  cs.foldl (fun n c => n * 10 + (c.toNat - 48)) 0

/-- Parse an unsigned decimal literal (digits with an optional fraction),
as accepted by JS `Number`; `none` is `NaN`. -/
def parseUnsigned (cs : List Char) : Option ℚ :=
  let ip := cs.takeWhile Char.isDigit
  let rest := cs.dropWhile Char.isDigit
  match rest with
  | [] => if ip.isEmpty then none else some (digitsVal ip : ℚ)
  | '.' :: fp =>
    if fp.all Char.isDigit && !(ip.isEmpty && fp.isEmpty) then
      some ((digitsVal ip : ℚ) + (digitsVal fp : ℚ) / (10 : ℚ) ^ fp.length)
    else none
  | _ => none

/-- Whitespace test for `Number`'s trimming behaviour. -/
def isWs (c : Char) : Bool :=
  c == ' ' || c == '\t' || c == '\n' || c == '\r'

/-- Trim leading and trailing whitespace from a character list. -/
def trimWs (cs : List Char) : List Char :=
  ((cs.dropWhile isWs).reverse.dropWhile isWs).reverse

/-- JS `Number(x)` on an optional string: `Number(undefined)` is `NaN`
(`none`), `Number("")` and whitespace-only strings are `0`, otherwise a
signed decimal literal; anything else is `NaN` (`none`). -/
def jsNumber (x : Option String) : Option ℚ :=
  match x with
  | none => none
  | some s =>
    let t := trimWs s.data
    if t.isEmpty then some 0
    else
      match t with
      | '-' :: rest => (parseUnsigned rest).map (fun q => -q)
      | '+' :: rest => parseUnsigned rest
      | cs => parseUnsigned cs

/-- Drop trailing `'0'` characters. -/
def stripZeros (cs : List Char) : List Char :=
  (cs.reverse.dropWhile (fun c => c == '0')).reverse

/-- Render `ms / 1000` the way JS renders the number `ms / 1000` in a
template string: an integer when `1000 ∣ ms`, otherwise a decimal with the
trailing zeros of the fractional part removed. -/
def msToSecondsString (ms : Nat) : String :=
  let q := ms / 1000
  let r := ms % 1000
  if r == 0 then toString q
  else
    let rs := toString r
    let padded := List.replicate (3 - rs.length) '0' ++ rs.data
    toString q ++ "." ++ String.mk (stripZeros padded)

/-- List prefix test used by the substring search. -/
def preEq : List Char → List Char → Bool
  | [], _ => true
  | _ :: _, [] => false
  | a :: as, b :: bs => a == b && preEq as bs

/-- Does the needle occur as a contiguous sublist of the haystack? -/
def hasSub (needle : List Char) : List Char → Bool
  | [] => preEq needle []
  | b :: bs => preEq needle (b :: bs) || hasSub needle bs

/-- JS `s.includes(pat)`. -/
def strIncludes (s pat : String) : Bool :=
  hasSub pat.data s.data

/-- Model metadata; the code only ever reads or overrides `contextWindow`.
Tokens counts are JS numbers, kept rational to match `Number(...)`. -/
structure ModelInfo where
  contextWindow : ℚ
deriving DecidableEq, Repr

/-- Result shape of `getModel`. -/
structure ModelDescriptor where
  id : String
  info : ModelInfo
deriving DecidableEq, Repr

/-- Modelled from the spec: `openAiModelInfoSaneDefaults` is imported from
`../../shared/api`, which is not part of this repository slice; the spec
fixes its `contextWindow` to the fixed default 32768. -/
def openAiModelInfoSaneDefaults : ModelInfo :=
  { contextWindow := 32768 }

/-- `ensureClient`: the `host` passed to the Ollama client constructor,
`this.options.ollamaBaseUrl || "http://localhost:11434"`. -/
def clientHost (o : OllamaHandlerOptions) : String :=
  jsOrString o.ollamaBaseUrl "http://localhost:11434"

/-- `this.options.requestTimeoutMs || 30000`, computed identically at the
race site and inside the timeout branch of the error classifier. -/
def effectiveTimeoutMs (o : OllamaHandlerOptions) : Nat :=
  jsOrNat o.requestTimeoutMs 30000

/-- The timeout rejection: a new Error whose message is
"Ollama request timed out after " + timeoutMs / 1000 + " seconds". -/
def timeoutError (o : OllamaHandlerOptions) : JsError :=
  mkJsError ("Ollama request timed out after "
    ++ msToSecondsString (effectiveTimeoutMs o) ++ " seconds")

/-- `getModel()`: id is `ollamaModelId || ""`; info is the default metadata,
except that a truthy `ollamaApiOptionsCtxNum` overrides `contextWindow`
with `Number(this.options.ollamaApiOptionsCtxNum) || 32768`. -/
def getModel (o : OllamaHandlerOptions) : ModelDescriptor :=
  { id := jsOrString o.ollamaModelId ""
    info :=
      match o.ollamaApiOptionsCtxNum with
      | none => openAiModelInfoSaneDefaults
      | some s =>
        if s = "" then openAiModelInfoSaneDefaults
        else { openAiModelInfoSaneDefaults with
               contextWindow := jsOrNum (jsNumber (some s)) 32768 } }

/-- The `num_ctx` request option,
`Number(this.options.ollamaApiOptionsCtxNum) || 32768`. -/
def numCtx (o : OllamaHandlerOptions) : ℚ :=
  jsOrNum (jsNumber o.ollamaApiOptionsCtxNum) 32768

/-- The TypeError raised by `chunk.message.content` when `chunk.message`
is `undefined`. -/
def undefinedContentError : JsError :=
  mkJsError "Cannot read properties of undefined (reading 'content')"

/-- The wrapper built in the stream catch block: a new Error whose message
is "Ollama stream processing error: " + (streamError.message or, when that
is absent or empty, "Unknown error"). -/
def streamProcessingError (e : JsError) : JsError :=
  mkJsError ("Ollama stream processing error: " ++ jsOrString e.message "Unknown error")

/-- The text events produced from one chunk whose `message` object is
present: one `TextDelta` exactly when `content` is a string. -/
def textEvents (content : Option String) : List CanonicalEvent :=
  match content with
  | some s => [CanonicalEvent.textDelta s]
  | none => []

/-- The usage events produced from one chunk: one `UsageUpdate` exactly when
`eval_count !== undefined || prompt_eval_count !== undefined`, with
`inputTokens = prompt_eval_count || 0` and `outputTokens = eval_count || 0`. -/
def usageEvents (c : OllamaChunk) : List CanonicalEvent :=
  if c.eval_count.isSome || c.prompt_eval_count.isSome then
    [CanonicalEvent.usageUpdate (jsOrNat c.prompt_eval_count 0) (jsOrNat c.eval_count 0)]
  else []

/-- The loop body of `for await (const chunk of stream)`: accessing
`chunk.message.content` throws when `message` is absent; otherwise the text
check and the usage check run independently, in that order. -/
def chunkStep (c : OllamaChunk) : Except JsError (List CanonicalEvent) :=
  match c.message with
  | none => Except.error undefinedContentError
  | some m => Except.ok (textEvents m.content ++ usageEvents c)

/-- The events a well-formed chunk yields (empty when the chunk would
throw instead). -/
def emittedEvents (c : OllamaChunk) : List CanonicalEvent :=
  match chunkStep c with
  | Except.ok evs => evs
  | Except.error _ => []

/-- A finished iteration of the upstream stream: the chunks it yielded in
order, then optionally the error that ended it mid-iteration. -/
def OllamaStream : Type := List OllamaChunk × Option JsError

/-- The inner try/for-await/catch of `createMessage`: chunks are translated
in arrival order; the first error — thrown by a chunk body or raised by the
stream itself — is wrapped as a stream-processing error and ends the
sequence, keeping every event emitted before it. -/
def translateChunks : List OllamaChunk → Option JsError → List CanonicalEvent × Option JsError
  | [], none => ([], none)
  | [], some e => ([], some (streamProcessingError e))
  | c :: cs, tail =>
    match chunkStep c with
    | Except.error e => ([], some (streamProcessingError e))
    | Except.ok evs =>
      let r := translateChunks cs tail
      (evs ++ r.1, r.2)

/-- `error.status || error.statusCode`: the status code the outer catch
records before rethrowing. -/
def extractStatus (e : JsError) : Option Nat :=
  match e.status with
  | none => e.statusCode
  | some n => if n = 0 then e.statusCode else some n

/-- `error.message && error.message.includes("timed out")`. -/
def indicatesTimeout (e : JsError) : Bool :=
  match e.message with
  | none => false
  | some m => !(m == "") && strIncludes m "timed out"

/-- The outer catch of `createMessage`: a timeout-looking message is
normalized to a fresh timeout error recomputed from the options; any other
error is rethrown unchanged (after logging its status code and message). -/
def classifyError (o : OllamaHandlerOptions) (e : JsError) : JsError :=
  if indicatesTimeout e then timeoutError o else e

/-- Which side of `Promise.race([apiPromise, timeoutPromise])` settles
first: the timer, or the request with its outcome. -/
inductive RaceOutcome where
  | timerFirst
  | requestFirst (r : Except JsError OllamaStream)

/-- The value of the race: a timer win rejects with the timeout error built
from the configured (or default) duration; otherwise the request's own
settlement is used as is. -/
def raceResult (o : OllamaHandlerOptions) : RaceOutcome → Except JsError OllamaStream
  | RaceOutcome.timerFirst => Except.error (timeoutError o)
  | RaceOutcome.requestFirst r => r

/-- The whole `createMessage` body after the request is built: race, then
stream translation, with every escaping error passing through the outer
catch (`classifyError`). Returns the delivered events and the terminal
error, if any. -/
def createMessage (o : OllamaHandlerOptions) (out : RaceOutcome) :
    List CanonicalEvent × Option JsError :=
  match raceResult o out with
  | Except.error e => ([], some (classifyError o e))
  | Except.ok (chunks, tail) =>
    let r := translateChunks chunks tail
    (r.1, r.2.map (classifyError o))

/-- The texts of the `TextDelta` events in a list, in order. -/
def textDeltasOf (evs : List CanonicalEvent) : List String :=
  evs.filterMap fun e =>
    match e with
    | CanonicalEvent.textDelta s => some s
    | _ => none

/-- The `(inputTokens, outputTokens)` pairs of the `UsageUpdate` events in a
list, in order. -/
def usageOf (evs : List CanonicalEvent) : List (Nat × Nat) :=
  evs.filterMap fun e =>
    match e with
    | CanonicalEvent.usageUpdate i o => some (i, o)
    | _ => none

/-- The value of `chunk.message.content` when it does not throw. -/
def contentOf (c : OllamaChunk) : Option String :=
  c.message.bind fun m => m.content

/-- Claim C1 read literally at one chunk: a `TextDelta` appears iff the
content field is a non-empty string, and carries that text. -/
def claimC1At (c : OllamaChunk) : Prop :=
  ((∃ s, contentOf c = some s ∧ s ≠ "") ↔ textDeltasOf (emittedEvents c) ≠ []) ∧
  ∀ s, contentOf c = some s → s ≠ "" → textDeltasOf (emittedEvents c) = [s]

/-- A chunk whose message carries the empty string as content. -/
def emptyContentChunk : OllamaChunk :=
  ⟨some ⟨some ""⟩, none, none⟩

/-- A chunk carrying the text "Hello" and no token counts. -/
def helloChunk : OllamaChunk :=
  ⟨some ⟨some "Hello"⟩, none, none⟩

/-- A chunk carrying token counts but no message object at all. -/
def noMessageChunk : OllamaChunk :=
  ⟨none, some 5, none⟩

/-- A usage-only chunk: message present, content absent, both counts set. -/
def usageChunk : OllamaChunk :=
  ⟨some ⟨none⟩, some 5, some 12⟩

/-- The three chunks of the spec's Scenario A, in arrival order. -/
def scenarioChunks : List OllamaChunk :=
  [helloChunk, ⟨some ⟨some " world"⟩, none, none⟩, usageChunk]

/-- An error object with no message at all. -/
def noMsgError : JsError :=
  ⟨none, none, none⟩

/-- An options record leaving every field unset. -/
def defaultOpts : OllamaHandlerOptions := {}

/-- An options record whose context-window override is not numeric. -/
def badCtxOpts : OllamaHandlerOptions :=
  { ollamaApiOptionsCtxNum := some "abc" }

/-- An options record setting every optional field to a falsy value:
empty strings and a zero timeout. -/
def falsyOpts : OllamaHandlerOptions :=
  { ollamaBaseUrl := some ""
    ollamaApiKey := none
    ollamaModelId := some ""
    ollamaApiOptionsCtxNum := some ""
    requestTimeoutMs := some 0 }

theorem chunkStep_eq_ok (c : OllamaChunk) (m : OllamaMessage) (hm : c.message = some m) :
    chunkStep c = Except.ok (textEvents m.content ++ usageEvents c) := by
  simp [chunkStep, hm]

theorem emittedEvents_eq (c : OllamaChunk) (m : OllamaMessage) (hm : c.message = some m) :
    emittedEvents c = textEvents m.content ++ usageEvents c := by
  simp [emittedEvents, chunkStep_eq_ok c m hm]

theorem chunkStep_eq_ok_of_isSome (c : OllamaChunk) (h : c.message.isSome = true) :
    chunkStep c = Except.ok (emittedEvents c) := by
  obtain ⟨m, hm⟩ := Option.isSome_iff_exists.mp h
  rw [chunkStep_eq_ok c m hm, emittedEvents_eq c m hm]

theorem translateChunks_all_ok (chunks : List OllamaChunk) (tail : Option JsError)
    (h : ∀ x ∈ chunks, x.message.isSome = true) :
    translateChunks chunks tail =
      ((chunks.map emittedEvents).flatten, tail.map streamProcessingError) := by
  induction chunks with
  | nil => cases tail <;> simp [translateChunks]
  | cons c cs ih =>
    have hstep := chunkStep_eq_ok_of_isSome c (h c (by simp))
    have ih2 := ih fun x hx => h x (by simp [hx])
    simp [translateChunks, hstep, ih2]

theorem translateChunks_break (pre : List OllamaChunk) (c : OllamaChunk)
    (post : List OllamaChunk) (tail : Option JsError)
    (hpre : ∀ x ∈ pre, x.message.isSome = true) (hc : c.message = none) :
    translateChunks (pre ++ c :: post) tail =
      ((pre.map emittedEvents).flatten, some (streamProcessingError undefinedContentError)) := by
  induction pre with
  | nil => simp [translateChunks, chunkStep, hc]
  | cons p ps ih =>
    have hstep := chunkStep_eq_ok_of_isSome p (hpre p (by simp))
    have ih2 := ih fun x hx => hpre x (by simp [hx])
    simp [translateChunks, hstep, ih2]

theorem textDeltasOf_usageEvents (c : OllamaChunk) :
    textDeltasOf (usageEvents c) = [] := by
  unfold usageEvents
  split <;> simp [textDeltasOf]

theorem usageOf_textEvents (ct : Option String) :
    usageOf (textEvents ct) = [] := by
  cases ct <;> simp [textEvents, usageOf]

theorem textDeltasOf_textEvents (ct : Option String) :
    textDeltasOf (textEvents ct) = ct.toList := by
  cases ct <;> simp [textEvents, textDeltasOf]

theorem textDeltasOf_append (l1 l2 : List CanonicalEvent) :
    textDeltasOf (l1 ++ l2) = textDeltasOf l1 ++ textDeltasOf l2 := by
  simp [textDeltasOf]

theorem usageOf_append (l1 l2 : List CanonicalEvent) :
    usageOf (l1 ++ l2) = usageOf l1 ++ usageOf l2 := by
  simp [usageOf]

/-- Claim C1, as stated, fails on the chunk whose content is the empty
string: the code checks only that content is a string, so it emits a
`TextDelta` carrying `""` although the content is not non-empty. -/
theorem C1_counterexample : ¬ claimC1At emptyContentChunk := by
  intro h
  obtain ⟨hiff, _⟩ := h
  have hne : textDeltasOf (emittedEvents emptyContentChunk) ≠ [] := by decide
  obtain ⟨s, hs, hsne⟩ := hiff.mpr hne
  have h0 : contentOf emptyContentChunk = some "" := rfl
  rw [h0] at hs
  exact hsne (Option.some.inj hs).symm

/-- Claim C1 amended: for every chunk, a `TextDelta` is emitted iff the
content field is a string — the empty string included — and when emitted it
is exactly one `TextDelta` carrying exactly that text (the texts of the
emitted text events are precisely the chunk's content, when present). -/
theorem C1_thm (c : OllamaChunk) :
    textDeltasOf (emittedEvents c) = (contentOf c).toList := by
  cases hm : c.message with
  | none => simp [emittedEvents, chunkStep, hm, contentOf, textDeltasOf]
  | some m =>
    rw [emittedEvents_eq c m hm, textDeltasOf_append, textDeltasOf_textEvents,
      textDeltasOf_usageEvents]
    simp [contentOf, hm]

/-- Claim C2: with override "8192" the resolved context window is 8192;
with the override absent, or set to a string that does not parse as a
number, it is the fixed default 32768. -/
theorem C2_thm :
    (∀ o : OllamaHandlerOptions, o.ollamaApiOptionsCtxNum = some "8192" →
      (getModel o).info.contextWindow = 8192) ∧
    (∀ o : OllamaHandlerOptions, o.ollamaApiOptionsCtxNum = none →
      (getModel o).info.contextWindow = 32768) ∧
    (∀ (o : OllamaHandlerOptions) (s : String), o.ollamaApiOptionsCtxNum = some s →
      jsNumber (some s) = none → (getModel o).info.contextWindow = 32768) := by
  refine ⟨?_, ?_, ?_⟩
  · intro o h
    have hv : jsNumber (some "8192") = some 8192 := by decide
    simp [getModel, h, hv, jsOrNum]
  · intro o h
    simp [getModel, h, openAiModelInfoSaneDefaults]
  · intro o s h hn
    by_cases hs : s = ""
    · simp [getModel, h, hs, openAiModelInfoSaneDefaults]
    · simp [getModel, h, hs, hn, jsOrNum, openAiModelInfoSaneDefaults]

/-- Witness for C2 at the override "8192". -/
theorem C2_witness :
    (getModel { ollamaApiOptionsCtxNum := some "8192" }).info.contextWindow = 8192 :=
  C2_thm.1 { ollamaApiOptionsCtxNum := some "8192" } rfl

/-- Claim C3: on a chunk whose message object is present, exactly one
`UsageUpdate` is emitted iff at least one token-count field is defined,
with a missing counterpart reported as 0; independently, the chunk's event
list is the text events followed by the usage events, so a chunk may yield
zero, one, or two events. -/
theorem C3_thm (c : OllamaChunk) (m : OllamaMessage) (hm : c.message = some m) :
    usageOf (emittedEvents c) =
      (if c.eval_count.isSome || c.prompt_eval_count.isSome then
        [(jsOrNat c.prompt_eval_count 0, jsOrNat c.eval_count 0)] else []) ∧
    emittedEvents c = textEvents m.content ++ usageEvents c := by
  have hdec := emittedEvents_eq c m hm
  refine ⟨?_, hdec⟩
  rw [hdec, usageOf_append, usageOf_textEvents]
  rcases Bool.eq_false_or_eq_true (c.eval_count.isSome || c.prompt_eval_count.isSome)
    with hb | hb <;> simp [usageEvents, usageOf, hb]

/-- Witness for C3 at the usage-only chunk of Scenario A. -/
theorem C3_witness :
    usageOf (emittedEvents usageChunk) = [(12, 5)] :=
  (C3_thm usageChunk ⟨none⟩ rfl).1.trans (by decide)

/-- Claim C4: when the upstream stream raises after delivering some chunks
(none of which themselves throw), translation delivers every event produced
before the error and ends with exactly one stream-processing error whose
message carries the original message, or "Unknown error" when the original
has none; nothing follows it. -/
theorem C4_thm (chunks : List OllamaChunk) (e : JsError)
    (h : ∀ x ∈ chunks, x.message.isSome = true) :
    translateChunks chunks (some e) =
      ((chunks.map emittedEvents).flatten, some (streamProcessingError e)) ∧
    (streamProcessingError e).message =
      some ("Ollama stream processing error: " ++ jsOrString e.message "Unknown error") ∧
    (e.message = none →
      (streamProcessingError e).message =
        some "Ollama stream processing error: Unknown error") := by
  refine ⟨?_, rfl, ?_⟩
  · rw [translateChunks_all_ok chunks (some e) h]
    rfl
  · intro hn
    simp [streamProcessingError, mkJsError, jsOrString, hn]

/-- Witness for C4: one chunk is delivered, then a message-less stream error
is wrapped with the "Unknown error" text. -/
theorem C4_witness :
    translateChunks [helloChunk] (some noMsgError) =
      ([CanonicalEvent.textDelta "Hello"],
        some (streamProcessingError noMsgError)) :=
  (C4_thm [helloChunk] noMsgError (by decide)).1.trans (by decide)

/-- Claim C5: in the race, a timer win fails the operation with the timeout
error whose message reports the configured duration in seconds, where the
effective duration is `requestTimeoutMs` or 30000 when unset (or zero); a
request win hands through the request's own outcome; and for millisecond
values divisible by 1000 the reported figure is exactly the integer
`timeoutMs / 1000`. -/
theorem C5_thm :
    (∀ o : OllamaHandlerOptions,
      raceResult o RaceOutcome.timerFirst = Except.error (timeoutError o)) ∧
    (∀ (o : OllamaHandlerOptions) (r : Except JsError OllamaStream),
      raceResult o (RaceOutcome.requestFirst r) = r) ∧
    (∀ o : OllamaHandlerOptions, (timeoutError o).message =
      some ("Ollama request timed out after "
        ++ msToSecondsString (effectiveTimeoutMs o) ++ " seconds")) ∧
    (∀ o : OllamaHandlerOptions, o.requestTimeoutMs = none →
      effectiveTimeoutMs o = 30000) ∧
    (∀ (o : OllamaHandlerOptions) (t : Nat), o.requestTimeoutMs = some t → t ≠ 0 →
      effectiveTimeoutMs o = t) ∧
    (∀ ms : Nat, ms % 1000 = 0 → msToSecondsString ms = toString (ms / 1000)) := by
  refine ⟨fun o => rfl, fun o r => rfl, fun o => rfl, ?_, ?_, ?_⟩
  · intro o h
    simp [effectiveTimeoutMs, jsOrNat, h]
  · intro o t h ht
    simp [effectiveTimeoutMs, jsOrNat, h, ht]
  · intro ms h
    unfold msToSecondsString
    simp [h]

/-- Witness for C5: the default options give a 30000 ms wait and the timer
rejection message reports 30 seconds. -/
theorem C5_witness :
    effectiveTimeoutMs defaultOpts = 30000 ∧
    (timeoutError defaultOpts).message =
      some "Ollama request timed out after 30 seconds" ∧
    raceResult defaultOpts RaceOutcome.timerFirst =
      Except.error (timeoutError defaultOpts) :=
  ⟨C5_thm.2.2.2.1 defaultOpts rfl,
    (C5_thm.2.2.1 defaultOpts).trans (by decide),
    C5_thm.1 defaultOpts⟩

/-- Claim C6: the `num_ctx` option sent in the request equals the parsed
override with default 32768, and is numerically equal, for every
configuration, to the context window `getModel` computes from the same
configuration. -/
theorem C6_thm :
    (∀ o : OllamaHandlerOptions, numCtx o = (getModel o).info.contextWindow) ∧
    (∀ o : OllamaHandlerOptions, jsNumber o.ollamaApiOptionsCtxNum = none →
      numCtx o = 32768) := by
  constructor
  · intro o
    cases h : o.ollamaApiOptionsCtxNum with
    | none =>
      simp [numCtx, getModel, h, jsNumber, jsOrNum, openAiModelInfoSaneDefaults]
    | some s =>
      by_cases hs : s = ""
      · have hv : jsNumber (some "") = some 0 := by decide
        simp [numCtx, getModel, h, hs, hv, jsOrNum, openAiModelInfoSaneDefaults]
      · simp [numCtx, getModel, h, hs]
  · intro o h
    simp [numCtx, h, jsOrNum]

/-- Witness for C6 at a non-numeric override. -/
theorem C6_witness : numCtx badCtxOpts = 32768 :=
  C6_thm.2 badCtxOpts (by decide)

/-- Claim C7: the outer catch normalizes every error whose non-empty
message contains "timed out" into the timeout error recomputed from the
configuration, and returns any other error unchanged. -/
theorem C7_thm (o : OllamaHandlerOptions) (e : JsError) :
    (indicatesTimeout e = true → classifyError o e = timeoutError o) ∧
    (indicatesTimeout e = false → classifyError o e = e) := by
  constructor <;> intro h <;> simp [classifyError, h]

/-- Witness for C7: a timeout-looking upstream error is normalized, a plain
error passes through unchanged. -/
theorem C7_witness :
    classifyError defaultOpts (mkJsError "request timed out") =
      timeoutError defaultOpts ∧
    classifyError defaultOpts (mkJsError "boom") = mkJsError "boom" :=
  ⟨(C7_thm defaultOpts (mkJsError "request timed out")).1 (by decide),
    (C7_thm defaultOpts (mkJsError "boom")).2 (by decide)⟩

/-- Claim C8: Scenario A produces exactly the three events in arrival
order, and in general translation of an error-free stream is the in-order
concatenation of each chunk's events, each chunk contributing its text
event before its usage event. -/
theorem C8_thm :
    translateChunks scenarioChunks none =
      ([CanonicalEvent.textDelta "Hello", CanonicalEvent.textDelta " world",
        CanonicalEvent.usageUpdate 12 5], none) ∧
    (∀ chunks : List OllamaChunk, (∀ x ∈ chunks, x.message.isSome = true) →
      translateChunks chunks none = ((chunks.map emittedEvents).flatten, none)) ∧
    (∀ (c : OllamaChunk) (m : OllamaMessage), c.message = some m →
      emittedEvents c = textEvents m.content ++ usageEvents c) := by
  refine ⟨by decide, ?_, emittedEvents_eq⟩
  intro chunks h
  simpa using translateChunks_all_ok chunks none h

/-- Witness for C8 at the Scenario A chunk list. -/
theorem C8_witness :
    translateChunks scenarioChunks none =
      ((scenarioChunks.map emittedEvents).flatten, none) :=
  C8_thm.2.1 scenarioChunks (by decide)

/-- Claim C9: a chunk with no message object makes the translation stop at
that chunk with the stream-processing wrap of the field-access TypeError,
keeping the events of the chunks before it and dropping everything after;
and when every chunk carries a message object that branch is unreachable —
the only possible terminal error is the wrap of the upstream one. -/
theorem C9_thm :
    (∀ (pre : List OllamaChunk) (c : OllamaChunk) (post : List OllamaChunk)
        (tail : Option JsError),
      (∀ x ∈ pre, x.message.isSome = true) → c.message = none →
      translateChunks (pre ++ c :: post) tail =
        ((pre.map emittedEvents).flatten,
          some (streamProcessingError undefinedContentError))) ∧
    (∀ (chunks : List OllamaChunk) (tail : Option JsError),
      (∀ x ∈ chunks, x.message.isSome = true) →
      translateChunks chunks tail =
        ((chunks.map emittedEvents).flatten, tail.map streamProcessingError)) ∧
    (streamProcessingError undefinedContentError).message =
      some ("Ollama stream processing error: "
        ++ "Cannot read properties of undefined (reading 'content')") :=
  ⟨translateChunks_break, translateChunks_all_ok, rfl⟩

/-- Witness for C9: a good chunk followed by a message-less chunk delivers
the first event then the wrapped TypeError, and the chunks after the bad
one contribute nothing. -/
theorem C9_witness :
    translateChunks [helloChunk, noMessageChunk, usageChunk] none =
      ([CanonicalEvent.textDelta "Hello"],
        some (streamProcessingError undefinedContentError)) :=
  (C9_thm.1 [helloChunk] noMessageChunk [usageChunk] none (by decide) rfl).trans
    (by decide)

/-- Claim C10: every falsy configuration value acts like an absent one —
a zero timeout yields the 30000 ms default and a message reporting 30
seconds, an empty base address yields the local default endpoint, an empty
model id resolves to the id "", and an empty context-window override
selects the default model metadata. -/
theorem C10_thm :
    (∀ o : OllamaHandlerOptions, o.requestTimeoutMs = some 0 →
      effectiveTimeoutMs o = 30000 ∧
      (timeoutError o).message = some "Ollama request timed out after 30 seconds") ∧
    (∀ o : OllamaHandlerOptions, o.ollamaBaseUrl = some "" →
      clientHost o = "http://localhost:11434") ∧
    (∀ o : OllamaHandlerOptions, o.ollamaModelId = some "" →
      (getModel o).id = "") ∧
    (∀ o : OllamaHandlerOptions, o.ollamaApiOptionsCtxNum = some "" →
      (getModel o).info = openAiModelInfoSaneDefaults) := by
  refine ⟨?_, ?_, ?_, ?_⟩
  · intro o h
    have he : effectiveTimeoutMs o = 30000 := by
      simp [effectiveTimeoutMs, jsOrNat, h]
    refine ⟨he, ?_⟩
    simp [timeoutError, mkJsError, he]
    decide
  · intro o h
    simp [clientHost, jsOrString, h]
  · intro o h
    simp [getModel, jsOrString, h]
  · intro o h
    simp [getModel, h]

/-- Witness for C10 at options setting every field to a falsy value. -/
theorem C10_witness :
    effectiveTimeoutMs falsyOpts = 30000 ∧
    clientHost falsyOpts = "http://localhost:11434" ∧
    (getModel falsyOpts).id = "" ∧
    (getModel falsyOpts).info = openAiModelInfoSaneDefaults :=
  ⟨(C10_thm.1 falsyOpts rfl).1, C10_thm.2.1 falsyOpts rfl,
    C10_thm.2.2.1 falsyOpts rfl, C10_thm.2.2.2 falsyOpts rfl⟩

end OllamaSpec
